import Mathlib

/-!
Shallow embedding of `src/calculations.rs` from the buy-vs-rent calculator.

Every `f64` value is modelled as a rational number (`ℚ`), so all arithmetic is
exact; division by zero yields `0` in this model, standing in for the
implementation-defined IEEE result.  `f64::powf` is only ever applied to
natural-number exponents in the source, so it is modelled by monoid `^`.
The `u32` fields are modelled as `Nat`; the two `u32` multiplications
`time_horizon_years * 12` and `loan_term_years * 12` are taken modulo `2^32`,
matching release-mode (wrapping) semantics where overflow matters.
-/

namespace BuyVsRent

/-- Mirror of `struct Inputs` (calculations.rs lines 8-26). -/
structure Inputs where
  home_price : ℚ
  down_payment_percent : ℚ
  mortgage_rate : ℚ
  loan_term_years : Nat
  property_tax_rate : ℚ
  home_insurance : ℚ
  hoa_monthly : ℚ
  maintenance_percent : ℚ
  home_appreciation : ℚ
  closing_cost_percent : ℚ
  selling_cost_percent : ℚ
  monthly_rent : ℚ
  rent_increase_rate : ℚ
  renters_insurance : ℚ
  investment_return : ℚ
  time_horizon_years : Nat
  deriving Repr, DecidableEq

/-- Mirror of `impl Default for Inputs` (lines 28-49). -/
def defaultInputs : Inputs where
  home_price := 400000
  down_payment_percent := 20
  mortgage_rate := 13/2
  loan_term_years := 30
  property_tax_rate := 6/5
  home_insurance := 1500
  hoa_monthly := 0
  maintenance_percent := 1
  home_appreciation := 3
  closing_cost_percent := 3
  selling_cost_percent := 6
  monthly_rent := 2000
  rent_increase_rate := 3
  renters_insurance := 200
  investment_return := 7
  time_horizon_years := 10

/-- Mirror of `struct YearlySnapshot` (lines 51-56). -/
structure YearlySnapshot where
  year : Nat
  buy_net_worth : ℚ
  rent_net_worth : ℚ
  deriving Repr, DecidableEq, Inhabited

/-- Mirror of `struct BuyBreakdown` (lines 58-77). -/
structure BuyBreakdown where
  down_payment : ℚ
  closing_costs : ℚ
  total_mortgage_payments : ℚ
  total_interest_paid : ℚ
  total_principal_paid : ℚ
  total_property_tax : ℚ
  total_insurance : ℚ
  total_hoa : ℚ
  total_maintenance : ℚ
  selling_costs : ℚ
  final_home_value : ℚ
  remaining_mortgage : ℚ
  monthly_savings_invested : ℚ
  investment_returns : ℚ
  investment_balance : ℚ
  net_worth : ℚ
  deriving Repr, DecidableEq

/-- Mirror of `struct RentBreakdown` (lines 79-88). -/
structure RentBreakdown where
  initial_investment : ℚ
  total_rent_paid : ℚ
  total_renters_insurance : ℚ
  monthly_cost_savings : ℚ
  investment_returns : ℚ
  final_investment_value : ℚ
  net_worth : ℚ
  deriving Repr, DecidableEq

/-- Mirror of `struct MonthlyCostComparison` (lines 91-96). -/
structure MonthlyCostComparison where
  avg_buy_monthly : ℚ
  avg_rent_monthly : ℚ
  avg_monthly_difference : ℚ
  deriving Repr, DecidableEq

/-- Mirror of `struct MonthlyBreakdown` (lines 99-112). -/
structure MonthlyBreakdown where
  buy_mortgage : ℚ
  buy_property_tax : ℚ
  buy_insurance : ℚ
  buy_hoa : ℚ
  buy_maintenance : ℚ
  buy_total : ℚ
  rent_payment : ℚ
  rent_insurance : ℚ
  rent_total : ℚ
  deriving Repr, DecidableEq

/-- Mirror of `struct CalculationResult` (lines 114-122). -/
structure CalculationResult where
  buy_breakdown : BuyBreakdown
  rent_breakdown : RentBreakdown
  monthly_comparison : MonthlyCostComparison
  monthly_breakdown : MonthlyBreakdown
  difference : ℚ
  yearly_snapshots : List YearlySnapshot
  deriving Repr, DecidableEq

/-- Mirror of `calculate_monthly_payment` (lines 125-132).  The exponent
`years as f64 * 12.0` is computed in `f64` in the source, hence exact (no
`u32` wrap-around); it is a natural-number exponent of `powf`. -/
def calculate_monthly_payment (principal annual_rate : ℚ) (years : Nat) : ℚ :=
  if annual_rate = 0 then principal / ((years : ℚ) * 12) else
  let monthly_rate := annual_rate / 100 / 12
  principal * (monthly_rate * (1 + monthly_rate) ^ (years * 12)) /
    ((1 + monthly_rate) ^ (years * 12) - 1)

/-- Mirror of `remaining_balance` (lines 135-150).  The comparison
`months_paid as f64 >= n` with `n = years as f64 * 12.0` happens in `f64`
and is exact for `u32` arguments. -/
def remaining_balance (principal annual_rate : ℚ) (years : Nat) (months_paid : Nat) : ℚ :=
  if annual_rate = 0 then
    let monthly_payment := principal / ((years : ℚ) * 12)
    max (principal - monthly_payment * (months_paid : ℚ)) 0
  else
    let monthly_rate := annual_rate / 100 / 12
    let monthly_payment := calculate_monthly_payment principal annual_rate years
    if (years : ℚ) * 12 ≤ (months_paid : ℚ) then 0
    else
      principal * (1 + monthly_rate) ^ months_paid
        - monthly_payment * ((1 + monthly_rate) ^ months_paid - 1) / monthly_rate

/-- `down_payment` as computed at line 153. -/
def down_payment (i : Inputs) : ℚ := i.home_price * i.down_payment_percent / 100

/-- `loan_amount` as computed at line 154. -/
def loan_amount (i : Inputs) : ℚ := i.home_price - down_payment i

/-- `closing_costs` as computed at line 155. -/
def closing_costs (i : Inputs) : ℚ := i.home_price * i.closing_cost_percent / 100

/-- `initial_investment` as computed at line 156. -/
def initial_investment (i : Inputs) : ℚ := down_payment i + closing_costs i

/-- `monthly_mortgage` as computed at line 158. -/
def monthly_mortgage (i : Inputs) : ℚ :=
  calculate_monthly_payment (loan_amount i) i.mortgage_rate i.loan_term_years

/-- `monthly_home_insurance` as computed at line 159. -/
def monthly_home_insurance (i : Inputs) : ℚ := i.home_insurance / 12

/-- `monthly_renters_insurance` as computed at line 160. -/
def monthly_renters_insurance (i : Inputs) : ℚ := i.renters_insurance / 12

/-- `monthly_investment_return` as computed at line 162. -/
def monthly_investment_return (i : Inputs) : ℚ := i.investment_return / 100 / 12

/-- `monthly_appreciation` as computed at line 163. -/
def monthly_appreciation (i : Inputs) : ℚ := i.home_appreciation / 100 / 12

/-- `total_months = inputs.time_horizon_years * 12` (line 165), a `u32`
product, wrapping modulo `2^32` in release builds. -/
def total_months (i : Inputs) : Nat := (i.time_horizon_years * 12) % 2 ^ 32

/-- `inputs.loan_term_years * 12` as used at lines 197, 255 and 276, a `u32`
product, wrapping modulo `2^32` in release builds. -/
def loan_months (i : Inputs) : Nat := (i.loan_term_years * 12) % 2 ^ 32

/-- Loop state of the `for month in 1..=total_months` loop
(lines 168-191): all the `mut` locals of `calculate`. -/
structure SimState where
  total_mortgage_payments : ℚ
  total_property_tax : ℚ
  total_home_insurance : ℚ
  total_hoa : ℚ
  total_maintenance : ℚ
  current_home_value : ℚ
  total_buy_monthly_costs : ℚ
  buyer_investment_balance : ℚ
  buyer_total_contributions : ℚ
  total_rent_paid : ℚ
  total_renters_insurance : ℚ
  current_rent : ℚ
  total_rent_monthly_costs : ℚ
  renter_investment_balance : ℚ
  renter_monthly_contributions : ℚ
  yearly_snapshots : List YearlySnapshot
  deriving Repr, DecidableEq

/-- Initial values of the loop state (lines 168-191). -/
def initState (i : Inputs) : SimState where
  total_mortgage_payments := 0
  total_property_tax := 0
  total_home_insurance := 0
  total_hoa := 0
  total_maintenance := 0
  current_home_value := i.home_price
  total_buy_monthly_costs := 0
  buyer_investment_balance := 0
  buyer_total_contributions := 0
  total_rent_paid := 0
  total_renters_insurance := 0
  current_rent := i.monthly_rent
  total_rent_monthly_costs := 0
  renter_investment_balance := initial_investment i
  renter_monthly_contributions := 0
  yearly_snapshots := []

/-- `mortgage_this_month` (lines 197-198): the payment applies only while
`month <= inputs.loan_term_years * 12` (`u32` arithmetic on the right). -/
def mortgage_this_month (i : Inputs) (month : Nat) : ℚ :=
  if month ≤ loan_months i then monthly_mortgage i else 0

/-- `buy_monthly_cost` (lines 200-207). -/
def buy_monthly_cost (i : Inputs) (month : Nat) (s : SimState) : ℚ :=
  mortgage_this_month i month
    + s.current_home_value * i.property_tax_rate / 100 / 12
    + monthly_home_insurance i
    + i.hoa_monthly
    + s.current_home_value * i.maintenance_percent / 100 / 12

/-- `rent_monthly_cost` (line 210). -/
def rent_monthly_cost (i : Inputs) (s : SimState) : ℚ :=
  s.current_rent + monthly_renters_insurance i

/-- One iteration of the simulation loop (lines 193-268), translated
statement by statement. -/
def monthStep (i : Inputs) (month : Nat) (s : SimState) : SimState :=
  let bc := buy_monthly_cost i month s
  let rc := rent_monthly_cost i s
  let property_tax_this_month := s.current_home_value * i.property_tax_rate / 100 / 12
  let maintenance_this_month := s.current_home_value * i.maintenance_percent / 100 / 12
  let current_home_value := s.current_home_value * (1 + monthly_appreciation i)
  let buyer_investment_balance :=
    s.buyer_investment_balance * (1 + monthly_investment_return i)
  let renter_investment_balance :=
    s.renter_investment_balance * (1 + monthly_investment_return i)
  let buyer_investment_balance :=
    if bc < rc then buyer_investment_balance + (rc - bc) else buyer_investment_balance
  let buyer_total_contributions :=
    if bc < rc then s.buyer_total_contributions + (rc - bc) else s.buyer_total_contributions
  let renter_investment_balance :=
    if bc < rc then renter_investment_balance else renter_investment_balance + (bc - rc)
  let renter_monthly_contributions :=
    if bc < rc then s.renter_monthly_contributions
    else s.renter_monthly_contributions + (bc - rc)
  let current_rent :=
    if month % 12 = 0 then s.current_rent * (1 + i.rent_increase_rate / 100)
    else s.current_rent
  let yearly_snapshots :=
    if month % 12 = 0 then
      let year := month / 12
      let months_paid := min month (loan_months i)
      let remaining_mort :=
        remaining_balance (loan_amount i) i.mortgage_rate i.loan_term_years months_paid
      let selling_costs_now := current_home_value * i.selling_cost_percent / 100
      let snap_buy_net_worth :=
        current_home_value - remaining_mort - selling_costs_now + buyer_investment_balance
      let snap_rent_net_worth := renter_investment_balance
      s.yearly_snapshots ++ [⟨year, snap_buy_net_worth, snap_rent_net_worth⟩]
    else s.yearly_snapshots
  { total_mortgage_payments := s.total_mortgage_payments + mortgage_this_month i month
    total_property_tax := s.total_property_tax + property_tax_this_month
    total_home_insurance := s.total_home_insurance + monthly_home_insurance i
    total_hoa := s.total_hoa + i.hoa_monthly
    total_maintenance := s.total_maintenance + maintenance_this_month
    current_home_value := current_home_value
    total_buy_monthly_costs := s.total_buy_monthly_costs + bc
    buyer_investment_balance := buyer_investment_balance
    buyer_total_contributions := buyer_total_contributions
    total_rent_paid := s.total_rent_paid + s.current_rent
    total_renters_insurance := s.total_renters_insurance + monthly_renters_insurance i
    current_rent := current_rent
    total_rent_monthly_costs := s.total_rent_monthly_costs + rc
    renter_investment_balance := renter_investment_balance
    renter_monthly_contributions := renter_monthly_contributions
    yearly_snapshots := yearly_snapshots }

/-- State after running the loop for the first `m` months. -/
def runMonths (i : Inputs) : Nat → SimState
  | 0 => initState i
  | m + 1 => monthStep i (m + 1) (runMonths i m)

/-- Mirror of `calculate` (lines 152-357): runs the loop over
`total_months` and assembles the result record (lines 270-356). -/
def calculate (i : Inputs) : CalculationResult :=
  let s := runMonths i (total_months i)
  let remaining_mortgage :=
    remaining_balance (loan_amount i) i.mortgage_rate i.loan_term_years
      (min (total_months i) (loan_months i))
  let selling_costs := s.current_home_value * i.selling_cost_percent / 100
  let buy_net_worth :=
    s.current_home_value - remaining_mortgage - selling_costs + s.buyer_investment_balance
  let total_principal_paid := loan_amount i - remaining_mortgage
  let total_interest_paid := s.total_mortgage_payments - total_principal_paid
  let renter_investment_returns :=
    s.renter_investment_balance - initial_investment i - s.renter_monthly_contributions
  let buyer_investment_returns := s.buyer_investment_balance - s.buyer_total_contributions
  let avg_buy_monthly := s.total_buy_monthly_costs / (total_months i : ℚ)
  let avg_rent_monthly := s.total_rent_monthly_costs / (total_months i : ℚ)
  let buy_breakdown : BuyBreakdown :=
    { down_payment := down_payment i
      closing_costs := closing_costs i
      total_mortgage_payments := s.total_mortgage_payments
      total_interest_paid := total_interest_paid
      total_principal_paid := total_principal_paid
      total_property_tax := s.total_property_tax
      total_insurance := s.total_home_insurance
      total_hoa := s.total_hoa
      total_maintenance := s.total_maintenance
      selling_costs := selling_costs
      final_home_value := s.current_home_value
      remaining_mortgage := remaining_mortgage
      net_worth := buy_net_worth
      monthly_savings_invested := s.buyer_total_contributions
      investment_returns := buyer_investment_returns
      investment_balance := s.buyer_investment_balance }
  let rent_breakdown : RentBreakdown :=
    { initial_investment := initial_investment i
      total_rent_paid := s.total_rent_paid
      total_renters_insurance := s.total_renters_insurance
      monthly_cost_savings := s.renter_monthly_contributions
      investment_returns := renter_investment_returns
      final_investment_value := s.renter_investment_balance
      net_worth := s.renter_investment_balance }
  let monthly_comparison : MonthlyCostComparison :=
    { avg_buy_monthly := avg_buy_monthly
      avg_rent_monthly := avg_rent_monthly
      avg_monthly_difference := avg_buy_monthly - avg_rent_monthly }
  let months : ℚ := (total_months i : ℚ)
  let monthly_breakdown : MonthlyBreakdown :=
    { buy_mortgage := s.total_mortgage_payments / months
      buy_property_tax := s.total_property_tax / months
      buy_insurance := s.total_home_insurance / months
      buy_hoa := s.total_hoa / months
      buy_maintenance := s.total_maintenance / months
      buy_total := avg_buy_monthly
      rent_payment := s.total_rent_paid / months
      rent_insurance := s.total_renters_insurance / months
      rent_total := avg_rent_monthly }
  { buy_breakdown := buy_breakdown
    rent_breakdown := rent_breakdown
    monthly_comparison := monthly_comparison
    monthly_breakdown := monthly_breakdown
    difference := buy_breakdown.net_worth - rent_breakdown.net_worth
    yearly_snapshots := s.yearly_snapshots }

/-- Rust saturating `f64 as u32` cast used at lines 366 and 378:
truncation toward zero, clamped to `[0, u32::MAX]` (NaN, which maps to 0,
has no rational representative). -/
def f64ToU32 (v : ℚ) : Nat :=
  if v < 0 then 0 else min ((Rat.floor v).toNat) (2 ^ 32 - 1)

/-- The field-update `match` inside `calculate_difference_for_value`
(lines 362-380). -/
def set_field (i : Inputs) (field : String) (value : ℚ) : Inputs :=
  if field = "home_price" then { i with home_price := value }
  else if field = "down_payment_percent" then { i with down_payment_percent := value }
  else if field = "mortgage_rate" then { i with mortgage_rate := value }
  else if field = "loan_term_years" then { i with loan_term_years := f64ToU32 value }
  else if field = "property_tax_rate" then { i with property_tax_rate := value }
  else if field = "home_insurance" then { i with home_insurance := value }
  else if field = "hoa_monthly" then { i with hoa_monthly := value }
  else if field = "maintenance_percent" then { i with maintenance_percent := value }
  else if field = "home_appreciation" then { i with home_appreciation := value }
  else if field = "closing_cost_percent" then { i with closing_cost_percent := value }
  else if field = "selling_cost_percent" then { i with selling_cost_percent := value }
  else if field = "monthly_rent" then { i with monthly_rent := value }
  else if field = "rent_increase_rate" then { i with rent_increase_rate := value }
  else if field = "renters_insurance" then { i with renters_insurance := value }
  else if field = "investment_return" then { i with investment_return := value }
  else if field = "time_horizon_years" then { i with time_horizon_years := f64ToU32 value }
  else i

/-- Mirror of `calculate_difference_for_value` (lines 360-383). -/
def calculate_difference_for_value (i : Inputs) (field : String) (value : ℚ) : ℚ :=
  (calculate (set_field i field value)).difference

/-- Mirror of `generate_sensitivity_data` (lines 386-395). -/
def generate_sensitivity_data (i : Inputs) (field : String) (mn mx : ℚ) (steps : Nat) :
    List (ℚ × ℚ) :=
  let step_size := (mx - mn) / (steps : ℚ)
  (List.range (steps + 1)).map fun (k : Nat) =>
    let value := mn + step_size * (k : ℚ)
    let diff := calculate_difference_for_value i field value
    (value, diff)

/-- The sixteen field identifiers recognised by the sweep's `match`
(lines 363-378). -/
def sweepFieldNames : List String :=
  ["home_price", "down_payment_percent", "mortgage_rate", "loan_term_years",
   "property_tax_rate", "home_insurance", "hoa_monthly", "maintenance_percent",
   "home_appreciation", "closing_cost_percent", "selling_cost_percent",
   "monthly_rent", "rent_increase_rate", "renters_insurance",
   "investment_return", "time_horizon_years"]

/-- Truncation toward zero of a rational value, the rounding mode the spec
calls "truncated, not rounded" for the swept integer fields. -/
def ratTrunc (q : ℚ) : ℤ :=
  if q < 0 then -(Rat.floor (-q)) else Rat.floor q

/-- The snapshot the loop records at month `12 * y`: every field read from
the state as it stands at the end of that month. -/
def snapAt (i : Inputs) (y : Nat) : YearlySnapshot where
  year := y
  buy_net_worth :=
    (runMonths i (12 * y)).current_home_value
      - remaining_balance (loan_amount i) i.mortgage_rate i.loan_term_years
          (min (12 * y) (loan_months i))
      - (runMonths i (12 * y)).current_home_value * i.selling_cost_percent / 100
      + (runMonths i (12 * y)).buyer_investment_balance
  rent_net_worth := (runMonths i (12 * y)).renter_investment_balance

/-- Inputs that are zero everywhere, with a one-year horizon and a one-year
loan: both monthly costs are identically zero. -/
def zeroInputs : Inputs where
  home_price := 0
  down_payment_percent := 0
  mortgage_rate := 0
  loan_term_years := 1
  property_tax_rate := 0
  home_insurance := 0
  hoa_monthly := 0
  maintenance_percent := 0
  home_appreciation := 0
  closing_cost_percent := 0
  selling_cost_percent := 0
  monthly_rent := 0
  rent_increase_rate := 0
  renters_insurance := 0
  investment_return := 0
  time_horizon_years := 1

/-- Zero-cost buy side against a 1200/month rent: the buyer banks 1200 every
month, so the buyer's investment balance is strictly positive. -/
def freeHomeInputs : Inputs := { zeroInputs with monthly_rent := 1200 }

/-- Smallest horizon whose `u32` product `time_horizon_years * 12` wraps:
`357913942 * 12 = 2^32 + 8`, so the loop runs only 8 months. -/
def overflowInputs : Inputs := { zeroInputs with time_horizon_years := 357913942 }

/-! ### Projection lemmas for one loop iteration -/

theorem monthStep_current_home_value (i : Inputs) (month : Nat) (s : SimState) :
    (monthStep i month s).current_home_value =
      s.current_home_value * (1 + monthly_appreciation i) := rfl

theorem monthStep_buyer_balance (i : Inputs) (month : Nat) (s : SimState) :
    (monthStep i month s).buyer_investment_balance =
      if buy_monthly_cost i month s < rent_monthly_cost i s then
        s.buyer_investment_balance * (1 + monthly_investment_return i)
          + (rent_monthly_cost i s - buy_monthly_cost i month s)
      else s.buyer_investment_balance * (1 + monthly_investment_return i) := rfl

theorem monthStep_renter_balance (i : Inputs) (month : Nat) (s : SimState) :
    (monthStep i month s).renter_investment_balance =
      if buy_monthly_cost i month s < rent_monthly_cost i s then
        s.renter_investment_balance * (1 + monthly_investment_return i)
      else
        s.renter_investment_balance * (1 + monthly_investment_return i)
          + (buy_monthly_cost i month s - rent_monthly_cost i s) := rfl

theorem monthStep_buyer_contributions (i : Inputs) (month : Nat) (s : SimState) :
    (monthStep i month s).buyer_total_contributions =
      if buy_monthly_cost i month s < rent_monthly_cost i s then
        s.buyer_total_contributions
          + (rent_monthly_cost i s - buy_monthly_cost i month s)
      else s.buyer_total_contributions := rfl

theorem monthStep_renter_contributions (i : Inputs) (month : Nat) (s : SimState) :
    (monthStep i month s).renter_monthly_contributions =
      if buy_monthly_cost i month s < rent_monthly_cost i s then
        s.renter_monthly_contributions
      else
        s.renter_monthly_contributions
          + (buy_monthly_cost i month s - rent_monthly_cost i s) := rfl

theorem monthStep_snapshots (i : Inputs) (month : Nat) (s : SimState) :
    (monthStep i month s).yearly_snapshots =
      if month % 12 = 0 then
        s.yearly_snapshots ++
          [⟨month / 12,
            (monthStep i month s).current_home_value
              - remaining_balance (loan_amount i) i.mortgage_rate i.loan_term_years
                  (min month (loan_months i))
              - (monthStep i month s).current_home_value * i.selling_cost_percent / 100
              + (monthStep i month s).buyer_investment_balance,
            (monthStep i month s).renter_investment_balance⟩]
      else s.yearly_snapshots := rfl

/-- The snapshot list after `m` months is the ordered list of `snapAt` values
for years `1` to `m / 12`. -/
theorem runMonths_snapshots (i : Inputs) (m : Nat) :
    (runMonths i m).yearly_snapshots =
      (List.range (m / 12)).map fun k => snapAt i (k + 1) := by
  induction m with
  | zero => rfl
  | succ m ih =>
    rw [show runMonths i (m + 1) = monthStep i (m + 1) (runMonths i m) from rfl,
      monthStep_snapshots]
    by_cases h : (m + 1) % 12 = 0
    · have hdvd : 12 ∣ (m + 1) := Nat.dvd_of_mod_eq_zero h
      have h1 : (m + 1) / 12 = m / 12 + 1 := by omega
      have h2 : 12 * (m / 12 + 1) = m + 1 := by omega
      rw [if_pos h, ih, h1, List.range_succ, List.map_append, List.map_cons, List.map_nil]
      congr 2
      rw [snapAt, h2, h1.symm]
      rfl
    · have h1 : (m + 1) / 12 = m / 12 := by omega
      rw [if_neg h, ih, h1]

/-! ### Claim C1 -/

/-- C1: for every input record with `time_horizon_years ≥ 1` and
`loan_term_years ≥ 1`, the result of `calculate` satisfies
`difference = buy_breakdown.net_worth - rent_breakdown.net_worth` exactly:
the source stores at line 347 literally that subtraction of the two
breakdown fields, so the equality is exact (bitwise in the `f64` program,
exact in this rational model). -/
theorem difference_eq_net_worth_sub (i : Inputs)
    (hh : 1 ≤ i.time_horizon_years) (hl : 1 ≤ i.loan_term_years) :
    (calculate i).difference =
      (calculate i).buy_breakdown.net_worth - (calculate i).rent_breakdown.net_worth := rfl

/-- C1 witness: the theorem applied at the default inputs. -/
theorem difference_eq_net_worth_sub_witness :
    1 ≤ defaultInputs.time_horizon_years ∧ 1 ≤ defaultInputs.loan_term_years ∧
    (calculate defaultInputs).difference =
      (calculate defaultInputs).buy_breakdown.net_worth
        - (calculate defaultInputs).rent_breakdown.net_worth :=
  ⟨by decide, by decide, difference_eq_net_worth_sub defaultInputs (by decide) (by decide)⟩

/-! ### Claim C2 -/

unseal Rat.add Rat.mul Rat.sub Rat.inv in
/-- C2 counterexample: with a zero-cost buy side against a 1200/month rent,
the buyer banks 1200 every month, and the year-1 snapshot's buy net worth is
14400, not the claimed `homeValue - remainingMortgage -
homeValue * sellingCostPercent / 100` (which is 0 here): the code at line 259
also adds `buyer_investment_balance` to the snapshot's buy net worth. -/
theorem snapshot_missing_balance_counterexample :
    1 ≤ freeHomeInputs.time_horizon_years ∧ 1 ≤ freeHomeInputs.loan_term_years ∧
    ((calculate freeHomeInputs).yearly_snapshots)[0]? = some ⟨1, 14400, 0⟩ ∧
    ¬(((calculate freeHomeInputs).yearly_snapshots)[0]?.map YearlySnapshot.buy_net_worth =
      some ((runMonths freeHomeInputs 12).current_home_value
        - remaining_balance (loan_amount freeHomeInputs) freeHomeInputs.mortgage_rate
            freeHomeInputs.loan_term_years (min 12 (loan_months freeHomeInputs))
        - (runMonths freeHomeInputs 12).current_home_value
            * freeHomeInputs.selling_cost_percent / 100)) := by
  refine ⟨by decide, by decide, by decide, by decide⟩

/-- C2 as amended: the snapshot recorded at month `12 * y` (the `(y-1)`-th
element) has `year = y`, buy net worth equal to
`homeValue - remainingMortgage - homeValue * sellingCostPercent / 100` PLUS
the buyer's investment balance as of that month, with `remainingMortgage`
evaluated at `min(monthsElapsed, loanTermYears * 12)` months paid (`u32`
product), and rent net worth equal to the renter's investment balance only. -/
theorem snapshot_formula (i : Inputs)
    (hh : 1 ≤ i.time_horizon_years) (hl : 1 ≤ i.loan_term_years)
    (y : Nat) (hy : 1 ≤ y) (hym : 12 * y ≤ total_months i) :
    ((calculate i).yearly_snapshots)[y - 1]? =
      some ⟨y,
        (runMonths i (12 * y)).current_home_value
          - remaining_balance (loan_amount i) i.mortgage_rate i.loan_term_years
              (min (12 * y) (loan_months i))
          - (runMonths i (12 * y)).current_home_value * i.selling_cost_percent / 100
          + (runMonths i (12 * y)).buyer_investment_balance,
        (runMonths i (12 * y)).renter_investment_balance⟩ := by
  have hcalc : (calculate i).yearly_snapshots =
      (runMonths i (total_months i)).yearly_snapshots := rfl
  have hk : y - 1 < total_months i / 12 := by omega
  rw [hcalc, runMonths_snapshots, List.getElem?_map, List.getElem?_range hk]
  have h1 : y - 1 + 1 = y := by omega
  rw [Option.map_some', h1]
  rfl

unseal Rat.add Rat.mul Rat.sub Rat.inv in
/-- C2 witness: the amended snapshot formula applied at `freeHomeInputs`,
year 1. -/
theorem snapshot_formula_witness :
    1 ≤ freeHomeInputs.time_horizon_years ∧ 1 ≤ freeHomeInputs.loan_term_years ∧
    (1 : Nat) ≤ 1 ∧ 12 * 1 ≤ total_months freeHomeInputs ∧
    ((calculate freeHomeInputs).yearly_snapshots)[1 - 1]? =
      some ⟨1,
        (runMonths freeHomeInputs (12 * 1)).current_home_value
          - remaining_balance (loan_amount freeHomeInputs) freeHomeInputs.mortgage_rate
              freeHomeInputs.loan_term_years (min (12 * 1) (loan_months freeHomeInputs))
          - (runMonths freeHomeInputs (12 * 1)).current_home_value
              * freeHomeInputs.selling_cost_percent / 100
          + (runMonths freeHomeInputs (12 * 1)).buyer_investment_balance,
        (runMonths freeHomeInputs (12 * 1)).renter_investment_balance⟩ :=
  ⟨by decide, by decide, by decide, by decide,
    snapshot_formula freeHomeInputs (by decide) (by decide) 1 (by decide) (by decide)⟩

/-! ### Claim C3 -/

unseal Rat.add Rat.mul Rat.sub Rat.inv in
/-- C3 counterexample: at `time_horizon_years = 357913942` (with
`loan_term_years = 1`, both within the claim's bounds) the `u32` product
`time_horizon_years * 12` wraps to `8`, the loop runs 8 months, and no
snapshot is ever recorded, so the snapshot list does not have length
`time_horizon_years` (in a debug build the same product panics instead). -/
theorem snapshots_length_overflow_counterexample :
    1 ≤ overflowInputs.time_horizon_years ∧ 1 ≤ overflowInputs.loan_term_years ∧
    (calculate overflowInputs).yearly_snapshots.length = 0 ∧
    ¬((calculate overflowInputs).yearly_snapshots.length =
        overflowInputs.time_horizon_years) := by
  refine ⟨by decide, by decide, by decide, by decide⟩

/-- C3 as amended: provided additionally that `time_horizon_years * 12` does
not overflow `u32` (`time_horizon_years * 12 < 2^32`), `calculate` returns
exactly `time_horizon_years` snapshots, whose year fields are contiguous and
strictly increasing from 1 to `time_horizon_years`, the `k`-th (0-based)
snapshot having `year = k + 1`; no snapshot is recorded at month 0 (the list
of recorded years starts at 1). -/
theorem snapshots_years_contiguous (i : Inputs)
    (hh : 1 ≤ i.time_horizon_years) (hl : 1 ≤ i.loan_term_years)
    (hw : i.time_horizon_years * 12 < 2 ^ 32) :
    (calculate i).yearly_snapshots.length = i.time_horizon_years ∧
    (calculate i).yearly_snapshots.map YearlySnapshot.year =
      List.range' 1 i.time_horizon_years ∧
    ∀ k, k < i.time_horizon_years →
      ((calculate i).yearly_snapshots.map YearlySnapshot.year)[k]? = some (k + 1) := by
  have hcalc : (calculate i).yearly_snapshots =
      (runMonths i (total_months i)).yearly_snapshots := rfl
  have htm : total_months i = i.time_horizon_years * 12 := by
    unfold total_months
    omega
  have hdiv : total_months i / 12 = i.time_horizon_years := by omega
  have hmap : (calculate i).yearly_snapshots.map YearlySnapshot.year =
      (List.range i.time_horizon_years).map fun k => k + 1 := by
    rw [hcalc, runMonths_snapshots, hdiv, List.map_map]
    rfl
  refine ⟨?_, ?_, ?_⟩
  · rw [hcalc, runMonths_snapshots, hdiv, List.length_map, List.length_range]
  · rw [hmap, List.range'_eq_map_range]
    simp [Nat.add_comm]
  · intro k hk
    rw [hmap, List.getElem?_map, List.getElem?_range hk, Option.map_some']

/-- C3 witness: the amended claim applied at the default inputs
(10-year horizon). -/
theorem snapshots_years_contiguous_witness :
    1 ≤ defaultInputs.time_horizon_years ∧ 1 ≤ defaultInputs.loan_term_years ∧
    defaultInputs.time_horizon_years * 12 < 2 ^ 32 ∧
    (calculate defaultInputs).yearly_snapshots.length = defaultInputs.time_horizon_years :=
  ⟨by decide, by decide, by decide,
    (snapshots_years_contiguous defaultInputs (by decide) (by decide) (by decide)).1⟩

/-! ### Claim C7 -/

/-- C7: `calculate` and the sweep are total: for every input record,
including degenerate ones (zero horizon, zero loan term, negative prices:
all representable here), the computation is a total function producing a
well-formed result record; the snapshot list always has `total_months / 12`
entries and the sweep always returns `steps + 1` samples.  Divisions by zero
yield the model's total-division value just as the `f64` code yields
infinity/NaN, with no panic and no error value (release-mode wrapping
semantics for the `u32` products). -/
theorem calculate_and_sweep_total (i : Inputs) (field : String) (mn mx : ℚ)
    (steps : Nat) :
    (calculate i).yearly_snapshots.length = total_months i / 12 ∧
    (generate_sensitivity_data i field mn mx steps).length = steps + 1 := by
  constructor
  · rw [show (calculate i).yearly_snapshots =
        (runMonths i (total_months i)).yearly_snapshots from rfl, runMonths_snapshots,
      List.length_map, List.length_range]
  · have hg : generate_sensitivity_data i field mn mx steps =
        (List.range (steps + 1)).map (fun (k : Nat) =>
          (mn + (mx - mn) / (steps : ℚ) * (k : ℚ),
           calculate_difference_for_value i field
             (mn + (mx - mn) / (steps : ℚ) * (k : ℚ)))) := rfl
    rw [hg, List.length_map, List.length_range]

/-! ### Claim C4 -/

/-- C4: in every simulated month both investment balances are first
multiplied by `1 + monthlyInvestmentReturn` and only then receives the
cheaper side's occupant (ties going to the renter, with a zero deposit) a
deposit of the cost difference, added to both that balance and that side's
contribution total, while the other balance receives no deposit; and if the
two monthly costs are equal every month of the run, both contribution totals
of the result are exactly 0. -/
theorem growth_then_deposit (i : Inputs) :
    (∀ month s,
      (buy_monthly_cost i month s < rent_monthly_cost i s →
        (monthStep i month s).buyer_investment_balance =
          s.buyer_investment_balance * (1 + monthly_investment_return i)
            + (rent_monthly_cost i s - buy_monthly_cost i month s) ∧
        (monthStep i month s).buyer_total_contributions =
          s.buyer_total_contributions
            + (rent_monthly_cost i s - buy_monthly_cost i month s) ∧
        (monthStep i month s).renter_investment_balance =
          s.renter_investment_balance * (1 + monthly_investment_return i) ∧
        (monthStep i month s).renter_monthly_contributions =
          s.renter_monthly_contributions) ∧
      (rent_monthly_cost i s ≤ buy_monthly_cost i month s →
        (monthStep i month s).renter_investment_balance =
          s.renter_investment_balance * (1 + monthly_investment_return i)
            + (buy_monthly_cost i month s - rent_monthly_cost i s) ∧
        (monthStep i month s).renter_monthly_contributions =
          s.renter_monthly_contributions
            + (buy_monthly_cost i month s - rent_monthly_cost i s) ∧
        (monthStep i month s).buyer_investment_balance =
          s.buyer_investment_balance * (1 + monthly_investment_return i) ∧
        (monthStep i month s).buyer_total_contributions =
          s.buyer_total_contributions)) ∧
    ((∀ month, month ≤ total_months i → 1 ≤ month →
        buy_monthly_cost i month (runMonths i (month - 1)) =
          rent_monthly_cost i (runMonths i (month - 1))) →
      (calculate i).buy_breakdown.monthly_savings_invested = 0 ∧
      (calculate i).rent_breakdown.monthly_cost_savings = 0) := by
  constructor
  · intro month s
    constructor
    · intro h
      exact ⟨by rw [monthStep_buyer_balance, if_pos h],
        by rw [monthStep_buyer_contributions, if_pos h],
        by rw [monthStep_renter_balance, if_pos h],
        by rw [monthStep_renter_contributions, if_pos h]⟩
    · intro h
      have h' : ¬ buy_monthly_cost i month s < rent_monthly_cost i s := not_lt.mpr h
      exact ⟨by rw [monthStep_renter_balance, if_neg h'],
        by rw [monthStep_renter_contributions, if_neg h'],
        by rw [monthStep_buyer_balance, if_neg h'],
        by rw [monthStep_buyer_contributions, if_neg h']⟩
  · intro H
    have key : ∀ m, m ≤ total_months i →
        (runMonths i m).buyer_total_contributions = 0 ∧
        (runMonths i m).renter_monthly_contributions = 0 := by
      intro m
      induction m with
      | zero => exact fun _ => ⟨rfl, rfl⟩
      | succ m ih =>
        intro hm
        obtain ⟨hb, hr⟩ := ih (by omega)
        have heq := H (m + 1) hm (by omega)
        simp only [Nat.add_sub_cancel] at heq
        have hlt : ¬ buy_monthly_cost i (m + 1) (runMonths i m) <
            rent_monthly_cost i (runMonths i m) := by
          rw [heq]
          exact lt_irrefl _
        constructor
        · rw [show runMonths i (m + 1) = monthStep i (m + 1) (runMonths i m) from rfl,
            monthStep_buyer_contributions, if_neg hlt, hb]
        · rw [show runMonths i (m + 1) = monthStep i (m + 1) (runMonths i m) from rfl,
            monthStep_renter_contributions, if_neg hlt, hr, heq]
          simp
    exact key (total_months i) le_rfl

unseal Rat.add Rat.mul Rat.sub Rat.inv in
/-- C4 witness: the equal-costs consequence applied at the all-zero inputs
(both monthly costs are identically 0 there), together with both directions
of the per-month deposit rule applied at concrete months and states. -/
theorem growth_then_deposit_witness :
    ((calculate zeroInputs).buy_breakdown.monthly_savings_invested = 0 ∧
      (calculate zeroInputs).rent_breakdown.monthly_cost_savings = 0) ∧
    (monthStep freeHomeInputs 1 (initState freeHomeInputs)).buyer_investment_balance =
      (initState freeHomeInputs).buyer_investment_balance
          * (1 + monthly_investment_return freeHomeInputs)
        + (rent_monthly_cost freeHomeInputs (initState freeHomeInputs)
            - buy_monthly_cost freeHomeInputs 1 (initState freeHomeInputs)) ∧
    (monthStep zeroInputs 1 (initState zeroInputs)).renter_monthly_contributions =
      (initState zeroInputs).renter_monthly_contributions
        + (buy_monthly_cost zeroInputs 1 (initState zeroInputs)
            - rent_monthly_cost zeroInputs (initState zeroInputs)) :=
  ⟨(growth_then_deposit zeroInputs).2 (by decide),
    (((growth_then_deposit freeHomeInputs).1 1 (initState freeHomeInputs)).1 (by decide)).1,
    ((((growth_then_deposit zeroInputs).1 1 (initState zeroInputs)).2 (by decide)).2).1⟩

/-! ### Claim C5 -/

/-- C5: for every principal `P ≥ 0`, annual rate `r ≥ 0`, term `Y ≥ 1` and
`monthsPaid ≥ Y * 12`, `remaining_balance` returns exactly 0, including the
zero-rate branch where the clamped straight-line formula bottoms out at 0. -/
theorem remaining_balance_zero_after_term (P r : ℚ) (Y m : Nat)
    (hP : 0 ≤ P) (hr : 0 ≤ r) (hY : 1 ≤ Y) (hm : Y * 12 ≤ m) :
    remaining_balance P r Y m = 0 := by
  have hY12 : (0 : ℚ) < (Y : ℚ) * 12 := by
    have h1 : (1 : ℚ) ≤ (Y : ℚ) := by exact_mod_cast hY
    linarith
  have hmq : (Y : ℚ) * 12 ≤ (m : ℚ) := by exact_mod_cast hm
  by_cases h0 : r = 0
  · rw [remaining_balance, if_pos h0]
    show max (P - P / ((Y : ℚ) * 12) * (m : ℚ)) 0 = 0
    apply max_eq_right
    have hd : 0 ≤ P / ((Y : ℚ) * 12) := div_nonneg hP (le_of_lt hY12)
    have hc : P / ((Y : ℚ) * 12) * ((Y : ℚ) * 12) = P :=
      div_mul_cancel₀ P (ne_of_gt hY12)
    have h2 : P / ((Y : ℚ) * 12) * ((Y : ℚ) * 12) ≤ P / ((Y : ℚ) * 12) * (m : ℚ) :=
      mul_le_mul_of_nonneg_left hmq hd
    linarith
  · rw [remaining_balance, if_neg h0]
    show (if (Y : ℚ) * 12 ≤ (m : ℚ) then (0 : ℚ)
      else P * (1 + r / 100 / 12) ^ m
        - calculate_monthly_payment P r Y * ((1 + r / 100 / 12) ^ m - 1)
            / (r / 100 / 12)) = 0
    rw [if_pos hmq]

/-- C5 witness: a 1000 principal at 5 percent over one year is fully paid
off at 12 months. -/
theorem remaining_balance_zero_after_term_witness :
    (0 : ℚ) ≤ 1000 ∧ (0 : ℚ) ≤ 5 ∧ (1 : Nat) ≤ 1 ∧ 1 * 12 ≤ 12 ∧
    remaining_balance 1000 5 1 12 = 0 :=
  ⟨by norm_num, by norm_num, by decide, by decide,
    remaining_balance_zero_after_term 1000 5 1 12 (by norm_num) (by norm_num)
      (by decide) (by decide)⟩

/-! ### Claim C6 -/

/-- C6: for every input record, field name, bounds and sample count `n ≥ 1`,
the sweep returns exactly `n + 1` pairs; the `k`-th value is
`min + k * (max - min) / n`, so the first value is exactly `min` and the
last exactly `max`. -/
theorem sweep_sample_values (i : Inputs) (field : String) (mn mx : ℚ) (n : Nat)
    (hn : 1 ≤ n) :
    (generate_sensitivity_data i field mn mx n).length = n + 1 ∧
    (∀ k, k < n + 1 →
      ((generate_sensitivity_data i field mn mx n).map Prod.fst)[k]? =
        some (mn + (k : ℚ) * (mx - mn) / (n : ℚ))) ∧
    ((generate_sensitivity_data i field mn mx n).map Prod.fst)[0]? = some mn ∧
    ((generate_sensitivity_data i field mn mx n).map Prod.fst)[n]? = some mx := by
  have hg : generate_sensitivity_data i field mn mx n =
      (List.range (n + 1)).map (fun (k : Nat) =>
        (mn + (mx - mn) / (n : ℚ) * (k : ℚ),
         calculate_difference_for_value i field
           (mn + (mx - mn) / (n : ℚ) * (k : ℚ)))) := rfl
  have hmap : (generate_sensitivity_data i field mn mx n).map Prod.fst =
      (List.range (n + 1)).map (fun (k : Nat) => mn + (mx - mn) / (n : ℚ) * (k : ℚ)) := by
    rw [hg, List.map_map]
    rfl
  have hval : ∀ k : Nat, k < n + 1 →
      ((generate_sensitivity_data i field mn mx n).map Prod.fst)[k]? =
        some (mn + (mx - mn) / (n : ℚ) * (k : ℚ)) := by
    intro k hk
    rw [hmap, List.getElem?_map, List.getElem?_range hk, Option.map_some']
  have hne : (n : ℚ) ≠ 0 := Nat.cast_ne_zero.mpr (by omega)
  refine ⟨?_, ?_, ?_, ?_⟩
  · rw [hg, List.length_map, List.length_range]
  · intro k hk
    rw [hval k hk]
    congr 1
    ring
  · rw [hval 0 (by omega)]
    congr 1
    push_cast
    ring
  · rw [hval n (by omega), div_mul_cancel₀ _ hne]
    congr 1
    ring

/-- C6 witness: a sweep with two steps has three samples. -/
theorem sweep_sample_values_witness :
    (1 : Nat) ≤ 2 ∧
    (generate_sensitivity_data defaultInputs "monthly_rent" 1000 3000 2).length = 2 + 1 :=
  ⟨by decide,
    (sweep_sample_values defaultInputs "monthly_rent" 1000 3000 2 (by decide)).1⟩

/-! ### Claim C8 -/

unseal Rat.add Rat.mul Rat.sub Rat.inv in
/-- C8 counterexample: the sweep assigns `-3.5` to `loan_term_years` as `0`
(Rust's saturating `as u32` cast), while truncation of `-3.5` toward zero is
`-3`: the stored field does not equal the truncation for negative values. -/
theorem int_field_negative_counterexample :
    (set_field defaultInputs "loan_term_years" (-(7/2))).loan_term_years = 0 ∧
    ratTrunc (-(7/2)) = -3 ∧
    ¬(((set_field defaultInputs "loan_term_years" (-(7/2))).loan_term_years : ℤ) =
        ratTrunc (-(7/2))) := by
  refine ⟨by decide, by decide, by decide⟩

/-- C8 as amended: the swept value assigned to an integer-semantic field
(`loan_term_years` or `time_horizon_years`) is stored as the Rust saturating
cast: truncation toward zero for values in `[0, 2^32)`, `0` for negative
values, and `u32::MAX = 2^32 - 1` for values at or above `2^32` (a NaN,
which the cast also maps to 0, has no rational representative). -/
theorem int_field_saturating_truncation (i : Inputs) (v : ℚ) :
    (v < 0 →
      (set_field i "loan_term_years" v).loan_term_years = 0 ∧
      (set_field i "time_horizon_years" v).time_horizon_years = 0) ∧
    (0 ≤ v → v < 2 ^ 32 →
      ((set_field i "loan_term_years" v).loan_term_years : ℤ) = ratTrunc v ∧
      ((set_field i "time_horizon_years" v).time_horizon_years : ℤ) = ratTrunc v) ∧
    (2 ^ 32 ≤ v →
      (set_field i "loan_term_years" v).loan_term_years = 2 ^ 32 - 1 ∧
      (set_field i "time_horizon_years" v).time_horizon_years = 2 ^ 32 - 1) := by
  have e1 : (set_field i "loan_term_years" v).loan_term_years = f64ToU32 v := rfl
  have e2 : (set_field i "time_horizon_years" v).time_horizon_years = f64ToU32 v := rfl
  have hfl : Rat.floor v = ⌊v⌋ := (Rat.floor_def' v).trans Rat.floor_def.symm
  have hneg : v < 0 → f64ToU32 v = 0 := by
    intro hv
    unfold f64ToU32
    rw [if_pos hv]
  have hmid : 0 ≤ v → v < 2 ^ 32 → ((f64ToU32 v : Nat) : ℤ) = ratTrunc v := by
    intro h0 h32
    have hnlt : ¬ v < 0 := not_lt.mpr h0
    unfold f64ToU32 ratTrunc
    rw [hfl, if_neg hnlt, if_neg hnlt]
    have h1 : 0 ≤ ⌊v⌋ := Int.floor_nonneg.mpr h0
    have h2 : ⌊v⌋ < 2 ^ 32 := Int.floor_lt.mpr (by exact_mod_cast h32)
    have h3 : ⌊v⌋.toNat ≤ 2 ^ 32 - 1 := by omega
    rw [min_eq_left h3]
    exact Int.toNat_of_nonneg h1
  have hbig : 2 ^ 32 ≤ v → f64ToU32 v = 2 ^ 32 - 1 := by
    intro hv
    have h0 : (0 : ℚ) ≤ v := le_trans (by norm_num) hv
    unfold f64ToU32
    rw [if_neg (not_lt.mpr h0), hfl]
    have h2 : (2 ^ 32 : ℤ) ≤ ⌊v⌋ := Int.le_floor.mpr (by exact_mod_cast hv)
    have h3 : 2 ^ 32 - 1 ≤ ⌊v⌋.toNat := by omega
    rw [min_eq_right h3]
  exact ⟨fun hv => ⟨e1.trans (hneg hv), e2.trans (hneg hv)⟩,
    fun h0 h32 => ⟨by rw [e1]; exact hmid h0 h32, by rw [e2]; exact hmid h0 h32⟩,
    fun hv => ⟨e1.trans (hbig hv), e2.trans (hbig hv)⟩⟩

unseal Rat.add Rat.mul Rat.sub Rat.inv in
/-- C8 witness: `3.5` is stored truncated to `3`, and `-3.5` saturates
to `0`. -/
theorem int_field_saturating_truncation_witness :
    (0 : ℚ) ≤ 7/2 ∧ (7/2 : ℚ) < 2 ^ 32 ∧
    ((set_field defaultInputs "loan_term_years" (7/2)).loan_term_years : ℤ) =
      ratTrunc (7/2) ∧
    (-(7/2) : ℚ) < 0 ∧
    (set_field defaultInputs "time_horizon_years" (-(7/2))).time_horizon_years = 0 :=
  ⟨by decide, by decide,
    ((int_field_saturating_truncation defaultInputs (7/2)).2.1 (by decide) (by decide)).1,
    by decide,
    ((int_field_saturating_truncation defaultInputs (-(7/2))).1 (by decide)).2⟩

/-! ### Claim C9 -/

/-- C9: for every input record, value, and field name outside the sixteen
known identifiers, the per-sample evaluation leaves the cloned inputs
unmodified and returns exactly the difference of `calculate` on the
original inputs: a silent no-op, no error signalled. -/
theorem unknown_field_noop (i : Inputs) (field : String) (v : ℚ)
    (h : field ∉ sweepFieldNames) :
    set_field i field v = i ∧
    calculate_difference_for_value i field v = (calculate i).difference := by
  simp only [sweepFieldNames, List.mem_cons, List.not_mem_nil, or_false, not_or] at h
  obtain ⟨h1, h2, h3, h4, h5, h6, h7, h8, h9, h10, h11, h12, h13, h14, h15, h16⟩ := h
  have hs : set_field i field v = i := by
    unfold set_field
    rw [if_neg h1, if_neg h2, if_neg h3, if_neg h4, if_neg h5, if_neg h6, if_neg h7,
      if_neg h8, if_neg h9, if_neg h10, if_neg h11, if_neg h12, if_neg h13, if_neg h14,
      if_neg h15, if_neg h16]
  refine ⟨hs, ?_⟩
  unfold calculate_difference_for_value
  rw [hs]

/-- C9 witness: the unknown field name `"bogus"` leaves the inputs
untouched. -/
theorem unknown_field_noop_witness :
    "bogus" ∉ sweepFieldNames ∧
    set_field defaultInputs "bogus" 5 = defaultInputs :=
  ⟨by decide, (unknown_field_noop defaultInputs "bogus" 5 (by decide)).1⟩

/-! ### Claim C10 -/

/-- C10: for every input record with `time_horizon_years ≥ 1` and
`loan_term_years ≥ 1` (all field values finite by construction in this
model), both `buy_breakdown.monthly_savings_invested` and
`rent_breakdown.monthly_cost_savings` are nonnegative: each month's deposit
is the absolute gap between the two monthly costs, so neither contribution
total can be negative, the struct comment "can be negative" notwithstanding. -/
theorem contribution_totals_nonneg (i : Inputs)
    (hh : 1 ≤ i.time_horizon_years) (hl : 1 ≤ i.loan_term_years) :
    0 ≤ (calculate i).buy_breakdown.monthly_savings_invested ∧
    0 ≤ (calculate i).rent_breakdown.monthly_cost_savings := by
  have key : ∀ m, 0 ≤ (runMonths i m).buyer_total_contributions ∧
      0 ≤ (runMonths i m).renter_monthly_contributions := by
    intro m
    induction m with
    | zero => exact ⟨le_refl 0, le_refl 0⟩
    | succ m ih =>
      obtain ⟨hb, hr⟩ := ih
      constructor
      · rw [show runMonths i (m + 1) = monthStep i (m + 1) (runMonths i m) from rfl,
          monthStep_buyer_contributions]
        by_cases h : buy_monthly_cost i (m + 1) (runMonths i m) <
            rent_monthly_cost i (runMonths i m)
        · rw [if_pos h]
          linarith
        · rw [if_neg h]
          exact hb
      · rw [show runMonths i (m + 1) = monthStep i (m + 1) (runMonths i m) from rfl,
          monthStep_renter_contributions]
        by_cases h : buy_monthly_cost i (m + 1) (runMonths i m) <
            rent_monthly_cost i (runMonths i m)
        · rw [if_pos h]
          exact hr
        · rw [if_neg h]
          rw [not_lt] at h
          linarith
  exact key (total_months i)

/-- C10 witness: the theorem applied at the default inputs. -/
theorem contribution_totals_nonneg_witness :
    1 ≤ defaultInputs.time_horizon_years ∧ 1 ≤ defaultInputs.loan_term_years ∧
    0 ≤ (calculate defaultInputs).buy_breakdown.monthly_savings_invested :=
  ⟨by decide, by decide,
    (contribution_totals_nonneg defaultInputs (by decide) (by decide)).1⟩

end BuyVsRent
